import Mathlib

/-!
Verification of the `@etoile-dev/client` SDK: a shallow embedding of the
client's input-validation, request-shaping and error-normalization layers
(`src/client.ts`, `src/fetch.ts`, `src/errors.ts`) together with proofs of
the specified properties.

JavaScript runtime values are modelled by the inductive `JSValue`;
JavaScript numbers by `JNum` (NaN, the two infinities, or a finite value
modelled as a rational, which is exact for every finite double as far as
the comparisons the client performs are concerned).  Each client method is
embedded as a function from its input to `Except EtoileError Request`:
a `.error` result is a validation failure raised before any request is
built (hence before the transport wrapper `fetchJson` could be invoked),
and an `.ok` result carries the exact outbound request (method, path and
JSON body) that is handed to the transport wrapper.
-/

/-- A JavaScript number: NaN, an infinity, or a finite value. -/
inductive JNum where
  | nan : JNum
  | posInf : JNum
  | negInf : JNum
  | fin : ℚ → JNum
deriving DecidableEq

/-- A JavaScript runtime value.  Objects are ordered association lists of
string keys, matching the insertion-ordered fields of a JS object literal. -/
inductive JSValue where
  | undef : JSValue
  | null : JSValue
  | bool : Bool → JSValue
  | num : JNum → JSValue
  | str : String → JSValue
  | arr : List JSValue → JSValue
  | obj : List (String × JSValue) → JSValue

/-- Decidable equality for `JSValue` (structural, as a nested recursion). -/
def JSValue.beq : JSValue → JSValue → Bool
  | .undef, .undef => true
  | .null, .null => true
  | .bool a, .bool b => a == b
  | .num a, .num b => a == b
  | .str a, .str b => a == b
  | .arr a, .arr b => beqList a b
  | .obj a, .obj b => beqFields a b
  | _, _ => false
where
  beqList : List JSValue → List JSValue → Bool
    | [], [] => true
    | x :: xs, y :: ys => beq x y && beqList xs ys
    | _, _ => false
  beqFields : List (String × JSValue) → List (String × JSValue) → Bool
    | [], [] => true
    | (k, x) :: xs, (l, y) :: ys => k == l && beq x y && beqFields xs ys
    | _, _ => false

/-- The JavaScript `typeof` operator on a `JSValue`. -/
def jsTypeof : JSValue → String
  | .undef => "undefined"
  | .null => "object"
  | .bool _ => "boolean"
  | .num _ => "number"
  | .str _ => "string"
  | .arr _ => "object"
  | .obj _ => "object"

/-- JavaScript truthiness: the falsy values are `undefined`, `null`,
`false`, `0`, `NaN` and the empty string. -/
def jsFalsy : JSValue → Bool
  | .undef => true
  | .null => true
  | .bool b => !b
  | .num .nan => true
  | .num (.fin q) => decide (q = 0)
  | .num _ => false
  | .str s => s.isEmpty
  | .arr _ => false
  | .obj _ => false

/-- Property access `v[k]`: a missing key (or a non-object receiver) reads
as `undefined`, as in JavaScript. -/
def jsGet : JSValue → String → JSValue
  | .obj fields, key => go fields key
  | _, _ => .undef
where
  go : List (String × JSValue) → String → JSValue
    | [], _ => .undef
    | (k, v) :: rest, key => if k = key then v else go rest key

/-- The nullish-coalescing operator `v ?? d`. -/
def jsNullish (v d : JSValue) : JSValue :=
  match v with
  | .undef => d
  | .null => d
  | _ => v

/-- `v === undefined`. -/
def isUndefined : JSValue → Bool
  | .undef => true
  | _ => false

/-- `v === null`. -/
def isNull : JSValue → Bool
  | .null => true
  | _ => false

/-- `typeof v === "string"`. -/
def isStringType : JSValue → Bool
  | .str _ => true
  | _ => false

/-- `Number.isFinite(v)`: `v` is a number other than NaN and the infinities. -/
def isFiniteNumber : JSValue → Bool
  | .num (.fin _) => true
  | _ => false

/-- `v <= 0` evaluated on a finite number (the only case the client reaches,
behind a `Number.isFinite` guard). -/
def numLeZero : JSValue → Bool
  | .num (.fin q) => decide (q ≤ 0)
  | _ => false

/-- `v < 0` evaluated on a finite number (reached behind a
`Number.isFinite` guard). -/
def numLtZero : JSValue → Bool
  | .num (.fin q) => decide (q < 0)
  | _ => false

/-- Strip leading whitespace characters from a character list. -/
def dropLeadingWS : List Char → List Char
  | [] => []
  | c :: cs => if c.isWhitespace then dropLeadingWS cs else c :: cs

/-- The JavaScript `String.prototype.trim`: strip leading and trailing
whitespace.  (Defined by structural recursion over the character list so
that it evaluates inside the kernel.) -/
def jsTrim (s : String) : String :=
  ⟨(dropLeadingWS (dropLeadingWS s.data).reverse).reverse⟩

/-- `typeof item === "string" && item.trim().length > 0`: the per-element
test used by `validateCollections`. -/
def isNonBlankString : JSValue → Bool
  | .str s => decide (0 < (jsTrim s).length)
  | _ => false

/-- Strict equality `v === s` between a runtime value and a string literal. -/
def strictEqStr : JSValue → String → Bool
  | .str t, s => t == s
  | _, _ => false

/-- From `src/errors.ts`: the uniform tagged error value. -/
structure EtoileError where
  name : String
  code : String
  message : String
deriving DecidableEq

/-- From `src/errors.ts`: `createEtoileError`. -/
def createEtoileError (code message : String) : EtoileError :=
  ⟨"EtoileError", code, message⟩

/-- From `src/errors.ts`: `isEtoileError`, the duck-typed runtime check for
the `EtoileError` shape on an arbitrary value. -/
def isEtoileError (value : JSValue) : Bool :=
  !(jsFalsy value) && (jsTypeof value == "object")
    && strictEqStr (jsGet value "name") "EtoileError"
    && isStringType (jsGet value "code")
    && isStringType (jsGet value "message")

/-- The outbound HTTP request a client method hands to the transport
wrapper: method, path (appended to the base URL) and JSON body. -/
structure Request where
  method : String
  path : String
  body : JSValue

/-- Lookup in an object body's ordered field list (first match wins, as for
JS object-literal keys, which are unique here anyway). -/
def objLookup : List (String × JSValue) → String → Option JSValue
  | [], _ => none
  | (k, v) :: rest, key => if k = key then some v else objLookup rest key

/-- From `src/client.ts`: `assertNonEmptyString` — throws `INVALID_INPUT`
unless the value is a string whose trimmed length is positive. -/
def assertNonEmptyString (value : JSValue) (field : String) : Except EtoileError Unit :=
  match value with
  | .str s =>
      if (jsTrim s).length = 0 then
        .error (createEtoileError "INVALID_INPUT" (field ++ " is required."))
      else
        .ok ()
  | _ => .error (createEtoileError "INVALID_INPUT" (field ++ " is required."))

/-- From `src/client.ts`: `assertContent` — identical test with a fixed
message. -/
def assertContent (value : JSValue) : Except EtoileError Unit :=
  match value with
  | .str s =>
      if (jsTrim s).length = 0 then
        .error (createEtoileError "INVALID_INPUT" "content is required.")
      else
        .ok ()
  | _ => .error (createEtoileError "INVALID_INPUT" "content is required.")

/-- From `src/client.ts`: `validateCollections` — requires a non-empty
array whose every element is a non-blank string, and returns the array
unchanged. -/
def validateCollections (collections : JSValue) : Except EtoileError (List JSValue) :=
  match collections with
  | .arr items =>
      if items.length = 0 then
        .error (createEtoileError "INVALID_INPUT"
          "collections must be a non-empty array of strings.")
      else if !(items.all isNonBlankString) then
        .error (createEtoileError "INVALID_INPUT"
          "collections must be a non-empty array of strings.")
      else
        .ok items
  | _ => .error (createEtoileError "INVALID_INPUT"
      "collections must be a non-empty array of strings.")

/-- From `src/client.ts` (`search`, limit check): if `limit` is present it
must be a finite number strictly greater than zero. -/
def validateLimit (limit : JSValue) : Except EtoileError Unit :=
  match limit with
  | .undef => .ok ()
  | v =>
      if !(isFiniteNumber v) || numLeZero v then
        .error (createEtoileError "INVALID_INPUT" "limit must be a positive number.")
      else
        .ok ()

/-- From `src/client.ts` (`search`, offset check): if `offset` is present
it must be a finite number that is not negative. -/
def validateOffset (offset : JSValue) : Except EtoileError Unit :=
  match offset with
  | .undef => .ok ()
  | v =>
      if !(isFiniteNumber v) || numLtZero v then
        .error (createEtoileError "INVALID_INPUT" "offset must be a non-negative number.")
      else
        .ok ()

/-- From `src/client.ts` (`search`): `filters` and `autoFilters` may not
both be supplied. -/
def validateExclusive (filters autoFilters : JSValue) : Except EtoileError Unit :=
  if !(isUndefined filters) && !(isUndefined autoFilters) then
    .error (createEtoileError "INVALID_INPUT" "filters and autoFilters are mutually exclusive.")
  else
    .ok ()

/-- From `src/client.ts` (`search`, per-filter body of the `for` loop):
each filter must be a truthy object with a non-blank `key`, a non-blank
`operator` and a `value` that is neither `undefined` nor `null`. -/
def validateFilter (filter : JSValue) : Except EtoileError Unit :=
  if jsFalsy filter || (jsTypeof filter != "object") then
    .error (createEtoileError "INVALID_INPUT" "Each filter must be an object.")
  else
    match assertNonEmptyString (jsGet filter "key") "filter.key" with
    | .error e => .error e
    | .ok _ =>
        match assertNonEmptyString (jsGet filter "operator") "filter.operator" with
        | .error e => .error e
        | .ok _ =>
            if isUndefined (jsGet filter "value") || isNull (jsGet filter "value") then
              .error (createEtoileError "INVALID_INPUT" "filter.value is required.")
            else
              .ok ()

/-- The `for (const filter of input.filters)` loop of `search`. -/
def validateFilterList : List JSValue → Except EtoileError Unit
  | [] => .ok ()
  | f :: rest =>
      match validateFilter f with
      | .error e => .error e
      | .ok _ => validateFilterList rest

/-- From `src/client.ts` (`search`): if `filters` is supplied it must be a
non-empty array and every element must validate. -/
def validateFilters (filters : JSValue) : Except EtoileError Unit :=
  match filters with
  | .undef => .ok ()
  | .arr items =>
      if items.length = 0 then
        .error (createEtoileError "INVALID_INPUT" "filters must be a non-empty array.")
      else
        validateFilterList items
  | _ => .error (createEtoileError "INVALID_INPUT" "filters must be a non-empty array.")

/-- `IndexInput` with runtime (unchecked) field values. -/
structure IndexInput where
  id : JSValue
  collection : JSValue
  title : JSValue
  content : JSValue
  metadata : JSValue

/-- `SearchInput` with runtime (unchecked) field values; an absent optional
field is `JSValue.undef`. -/
structure SearchInput where
  query : JSValue
  collections : JSValue
  limit : JSValue
  offset : JSValue
  filters : JSValue
  autoFilters : JSValue

/-- `PatchInput` with runtime (unchecked) field values. -/
structure PatchInput where
  id : JSValue
  metadata : JSValue

/-- The fixed service endpoint `API_URL`. -/
def API_URL : String := "https://etoile.dev/api/v1"

/-- The client's immutable configuration. -/
structure ClientConfig where
  apiKey : JSValue
  baseUrl : JSValue

/-- From `src/client.ts`: the `Etoile` constructor — requires a truthy
object config with a non-blank `apiKey`; `baseUrl` defaults to `API_URL`. -/
def mkEtoile (config : JSValue) : Except EtoileError ClientConfig :=
  if jsFalsy config || (jsTypeof config != "object") then
    .error (createEtoileError "INVALID_INPUT" "Config is required.")
  else
    match assertNonEmptyString (jsGet config "apiKey") "apiKey" with
    | .error e => .error e
    | .ok _ => .ok ⟨jsGet config "apiKey", jsNullish (jsGet config "baseUrl") (.str API_URL)⟩

namespace Etoile

/-- From `src/client.ts`: `Etoile.index` — validates the four required
string fields, then builds a POST to `/index` whose body literal has the
four caller values plus a `metadata` key (possibly `undefined`). -/
def index (input : IndexInput) : Except EtoileError Request :=
  match assertNonEmptyString input.id "id" with
  | .error e => .error e
  | .ok _ =>
  match assertNonEmptyString input.collection "collection" with
  | .error e => .error e
  | .ok _ =>
  match assertNonEmptyString input.title "title" with
  | .error e => .error e
  | .ok _ =>
  match assertContent input.content with
  | .error e => .error e
  | .ok _ =>
      .ok ⟨"POST", "/index",
        .obj [("id", input.id), ("collection", input.collection),
              ("title", input.title), ("content", input.content),
              ("metadata", input.metadata)]⟩

/-- From `src/client.ts`: `Etoile.search` — runs the validations in source
order, then builds a POST to `/search`; `limit` and `offset` default via
`??`, and `filters` / `autoFilters` are appended to the body only when the
caller supplied them. -/
def search (input : SearchInput) : Except EtoileError Request :=
  match assertNonEmptyString input.query "query" with
  | .error e => .error e
  | .ok _ =>
  match validateCollections input.collections with
  | .error e => .error e
  | .ok collections =>
  match validateLimit input.limit with
  | .error e => .error e
  | .ok _ =>
  match validateOffset input.offset with
  | .error e => .error e
  | .ok _ =>
  match validateExclusive input.filters input.autoFilters with
  | .error e => .error e
  | .ok _ =>
  match validateFilters input.filters with
  | .error e => .error e
  | .ok _ =>
      .ok ⟨"POST", "/search",
        .obj ([("query", input.query), ("collections", .arr collections),
               ("limit", jsNullish input.limit (.num (.fin 10))),
               ("offset", jsNullish input.offset (.num (.fin 0)))]
          ++ (if isUndefined input.filters then [] else [("filters", input.filters)])
          ++ (if isUndefined input.autoFilters then [] else [("autoFilters", input.autoFilters)]))⟩

/-- From `src/client.ts`: `Etoile.delete` — validates `id`, then builds a
DELETE to `/documents` with body `{id}`. -/
def delete (id : JSValue) : Except EtoileError Request :=
  match assertNonEmptyString id "id" with
  | .error e => .error e
  | .ok _ => .ok ⟨"DELETE", "/documents", .obj [("id", id)]⟩

/-- From `src/client.ts`: `Etoile.patch` — validates `id` and that
`metadata` is a truthy object, then builds a PATCH to `/documents`. -/
def patch (input : PatchInput) : Except EtoileError Request :=
  match assertNonEmptyString input.id "id" with
  | .error e => .error e
  | .ok _ =>
      if jsFalsy input.metadata || (jsTypeof input.metadata != "object") then
        .error (createEtoileError "INVALID_INPUT" "metadata is required.")
      else
        .ok ⟨"PATCH", "/documents", .obj [("id", input.id), ("metadata", input.metadata)]⟩

end Etoile

/-- From `src/fetch.ts`: `isObject` — `typeof value === "object" && value !== null`. -/
def isObject : JSValue → Bool
  | .null => false
  | .obj _ => true
  | .arr _ => true
  | _ => false

/-- The outcome of the single HTTP exchange `fetchJson` performs, seen from
the client: either a response arrived (with its `ok` status flag and the
JSON-parse result of its body, `none` meaning the body is not valid JSON),
or some step of the exchange threw a value. -/
inductive FetchOutcome where
  | response : Bool → Option JSValue → FetchOutcome
  | thrown : JSValue → FetchOutcome

/-- The value `response.json()` rejects with when a success body is not
valid JSON: a `SyntaxError`, which is an object. -/
def jsonParseError : JSValue := .obj [("name", .str "SyntaxError")]

/-- From `src/fetch.ts`: `parseErrorPayload` — the parsed body if it is an
object, otherwise the generic substitute. -/
def parseErrorPayload : Option JSValue → JSValue
  | some data => if isObject data then data else .obj [("error", .str "Request failed.")]
  | none => .obj [("error", .str "Request failed.")]

/-- The `try` block of `fetchJson`: a `.error` is a value thrown inside the
block (before the surrounding `catch` runs). -/
def fetchJsonAttempt : FetchOutcome → Except JSValue JSValue
  | .thrown e => .error e
  | .response ok body =>
      if ok then
        match body with
        | some v => .ok v
        | none => .error jsonParseError
      else
        .error (parseErrorPayload body)

/-- From `src/fetch.ts`: `fetchJson` — the `try` block wrapped in the
`catch` that re-throws object values unchanged and normalizes everything
else to the generic network-failure object. -/
def fetchJson (outcome : FetchOutcome) : Except JSValue JSValue :=
  match fetchJsonAttempt outcome with
  | .ok v => .ok v
  | .error e =>
      if isObject e then .error e
      else .error (.obj [("error", .str "Network request failed.")])

/-- From `src/types.ts`: the members of the `FilterOperator` union type. -/
def FilterOperator.values : List String :=
  ["eq", "neq", "gt", "gte", "lt", "lte", "in", "not_in",
   "contains_all", "contains_any", "contains_none"]

/-- Lookup of a key in a JSON body: `none` if the body is not an object or
the key is absent. -/
def bodyGet : JSValue → String → Option JSValue
  | .obj fields, key => objLookup fields key
  | _, _ => none

/-- The collections-rejection condition in the words of the claim: the
value is not an array, is an empty array, or contains an element that is
not a string or is a blank (trimmed-empty) string. -/
def collectionsRejectSpec : JSValue → Bool
  | .arr xs => xs.isEmpty || xs.any (fun item => !(isNonBlankString item))
  | _ => true

/-- A concrete search input carrying one explicit filter, used as a
witness for the body-shaping property. -/
def sampleFilteredSearchInput : SearchInput :=
  ⟨.str "espresso", .arr [.str "products"], .undef, .undef,
   .arr [.obj [("key", .str "category"), ("operator", .str "eq"),
     ("value", .str "kitchen")]],
   .undef⟩

/-- The request `search` builds for `sampleFilteredSearchInput`. -/
def sampleFilteredSearchRequest : Request :=
  ⟨"POST", "/search",
   .obj [("query", .str "espresso"), ("collections", .arr [.str "products"]),
         ("limit", .num (.fin 10)), ("offset", .num (.fin 0)),
         ("filters", .arr [.obj [("key", .str "category"), ("operator", .str "eq"),
           ("value", .str "kitchen")]])]⟩

/-! ### Characterization lemmas for the validators -/

theorem createEtoileError_code (c m : String) : (createEtoileError c m).code = c := rfl

theorem isUndefined_iff (v : JSValue) : isUndefined v = true ↔ v = .undef := by
  cases v <;> simp [isUndefined]

theorem assertNonEmptyString_ok_iff (v : JSValue) (field : String) :
    assertNonEmptyString v field = .ok () ↔ isNonBlankString v = true := by
  cases v <;> simp [assertNonEmptyString, isNonBlankString] <;> omega

theorem assertNonEmptyString_error_eq {v : JSValue} {field : String} {e : EtoileError}
    (h : assertNonEmptyString v field = .error e) :
    e = createEtoileError "INVALID_INPUT" (field ++ " is required.") := by
  cases v <;> simp only [assertNonEmptyString] at h
  all_goals try split at h
  all_goals simp_all

theorem assertNonEmptyString_blank {v : JSValue} {field : String}
    (h : isNonBlankString v = false) :
    assertNonEmptyString v field
      = .error (createEtoileError "INVALID_INPUT" (field ++ " is required.")) := by
  cases v <;> simp only [assertNonEmptyString, isNonBlankString] at h ⊢ <;> try rfl
  next s => split <;> simp_all

theorem assertContent_ok_iff (v : JSValue) :
    assertContent v = .ok () ↔ isNonBlankString v = true := by
  cases v <;> simp [assertContent, isNonBlankString] <;> omega

theorem assertContent_error_eq {v : JSValue} {e : EtoileError}
    (h : assertContent v = .error e) :
    e = createEtoileError "INVALID_INPUT" "content is required." := by
  cases v <;> simp only [assertContent] at h
  all_goals try split at h
  all_goals simp_all

theorem validateCollections_ok_iff (c : JSValue) (xs : List JSValue) :
    validateCollections c = .ok xs ↔
      c = .arr xs ∧ xs.length ≠ 0 ∧ xs.all isNonBlankString = true := by
  cases c <;> simp only [validateCollections] <;> try simp
  next items =>
    constructor
    · intro h
      split at h
      · exact absurd h (by simp)
      · split at h
        · exact absurd h (by simp)
        · simp_all
    · rintro ⟨h1, h2, h3⟩
      subst h1
      rw [if_neg (by simp [h2]), if_neg (by simpa using h3)]

theorem validateCollections_error_eq {c : JSValue} {e : EtoileError}
    (h : validateCollections c = .error e) :
    e = createEtoileError "INVALID_INPUT"
      "collections must be a non-empty array of strings." := by
  cases c <;> simp only [validateCollections] at h
  all_goals try split at h
  all_goals try split at h
  all_goals simp_all

theorem validateLimit_ok_iff (v : JSValue) :
    validateLimit v = .ok () ↔
      (v = .undef ∨ (isFiniteNumber v = true ∧ numLeZero v = false)) := by
  cases v <;> simp only [validateLimit, isFiniteNumber, numLeZero] <;> simp

theorem validateLimit_error_eq {v : JSValue} {e : EtoileError}
    (h : validateLimit v = .error e) :
    e = createEtoileError "INVALID_INPUT" "limit must be a positive number." := by
  cases v <;> simp only [validateLimit] at h
  all_goals try split at h
  all_goals simp_all

theorem validateOffset_ok_iff (v : JSValue) :
    validateOffset v = .ok () ↔
      (v = .undef ∨ (isFiniteNumber v = true ∧ numLtZero v = false)) := by
  cases v <;> simp only [validateOffset, isFiniteNumber, numLtZero] <;> simp

theorem validateOffset_error_eq {v : JSValue} {e : EtoileError}
    (h : validateOffset v = .error e) :
    e = createEtoileError "INVALID_INPUT" "offset must be a non-negative number." := by
  cases v <;> simp only [validateOffset] at h
  all_goals try split at h
  all_goals simp_all

theorem validateExclusive_ok_iff (f a : JSValue) :
    validateExclusive f a = .ok () ↔ (f = .undef ∨ a = .undef) := by
  cases f <;> cases a <;> simp [validateExclusive, isUndefined]

theorem validateExclusive_error_eq {f a : JSValue} {e : EtoileError}
    (h : validateExclusive f a = .error e) :
    e = createEtoileError "INVALID_INPUT"
      "filters and autoFilters are mutually exclusive." := by
  unfold validateExclusive at h
  split at h <;> simp_all

theorem validateFilter_error_props {f : JSValue} {e : EtoileError}
    (h : validateFilter f = .error e) :
    e.code = "INVALID_INPUT" ∧ e.message ≠ "limit must be a positive number." := by
  unfold validateFilter at h
  split at h
  · injection h with h
    subst h
    exact ⟨rfl, by decide⟩
  · cases hk : assertNonEmptyString (jsGet f "key") "filter.key" with
    | error e1 =>
        simp only [hk] at h
        injection h with h
        subst h
        rw [assertNonEmptyString_error_eq hk]
        exact ⟨rfl, by decide⟩
    | ok u =>
        cases u
        simp only [hk] at h
        cases hop : assertNonEmptyString (jsGet f "operator") "filter.operator" with
        | error e2 =>
            simp only [hop] at h
            injection h with h
            subst h
            rw [assertNonEmptyString_error_eq hop]
            exact ⟨rfl, by decide⟩
        | ok u2 =>
            cases u2
            simp only [hop] at h
            split at h
            · injection h with h
              subst h
              exact ⟨rfl, by decide⟩
            · exact absurd h (by simp)

theorem validateFilter_ok_operator {f : JSValue} (h : validateFilter f = .ok ()) :
    isNonBlankString (jsGet f "operator") = true := by
  unfold validateFilter at h
  split at h
  · exact absurd h (by simp)
  · cases hk : assertNonEmptyString (jsGet f "key") "filter.key" with
    | error e1 => simp [hk] at h
    | ok u =>
        cases u
        simp only [hk] at h
        cases hop : assertNonEmptyString (jsGet f "operator") "filter.operator" with
        | error e2 => simp [hop] at h
        | ok u2 =>
            cases u2
            exact (assertNonEmptyString_ok_iff _ _).1 hop

theorem validateFilterList_error_props (l : List JSValue) {e : EtoileError}
    (h : validateFilterList l = .error e) :
    e.code = "INVALID_INPUT" ∧ e.message ≠ "limit must be a positive number." := by
  induction l with
  | nil => simp [validateFilterList] at h
  | cons f rest ih =>
      unfold validateFilterList at h
      cases hf : validateFilter f with
      | error e1 =>
          simp only [hf] at h
          injection h with h
          subst h
          exact validateFilter_error_props hf
      | ok u =>
          cases u
          simp only [hf] at h
          exact ih h

theorem validateFilterList_ok_mem (l : List JSValue) :
    validateFilterList l = .ok () → ∀ f ∈ l, validateFilter f = .ok () := by
  induction l with
  | nil => intro _ f hf; cases hf
  | cons g rest ih =>
      intro h f hf
      unfold validateFilterList at h
      cases hg : validateFilter g with
      | error e1 => simp [hg] at h
      | ok u =>
          cases u
          simp only [hg] at h
          rcases List.mem_cons.mp hf with rfl | hmem
          · exact hg
          · exact ih h f hmem

theorem validateFilters_error_props {v : JSValue} {e : EtoileError}
    (h : validateFilters v = .error e) :
    e.code = "INVALID_INPUT" ∧ e.message ≠ "limit must be a positive number." := by
  cases v <;> simp only [validateFilters] at h
  all_goals try split at h
  all_goals first
    | (injection h with h; subst h; exact ⟨rfl, by decide⟩)
    | exact validateFilterList_error_props _ h
    | simp_all

theorem validateFilters_arr_ok {xs : List JSValue}
    (h : validateFilters (.arr xs) = .ok ()) : ∀ f ∈ xs, validateFilter f = .ok () := by
  simp only [validateFilters] at h
  split at h
  · simp at h
  · exact validateFilterList_ok_mem xs h

/-! ### Provenance and inversion lemmas for the client operations -/

theorem search_error_source {input : SearchInput} {e : EtoileError}
    (h : Etoile.search input = .error e) :
    assertNonEmptyString input.query "query" = .error e ∨
    validateCollections input.collections = .error e ∨
    validateLimit input.limit = .error e ∨
    validateOffset input.offset = .error e ∨
    validateExclusive input.filters input.autoFilters = .error e ∨
    validateFilters input.filters = .error e := by
  unfold Etoile.search at h
  cases h1 : assertNonEmptyString input.query "query" with
  | error e1 =>
      simp only [h1] at h
      injection h with h
      subst h
      exact Or.inl rfl
  | ok u =>
      cases u
      simp only [h1] at h
      cases h2 : validateCollections input.collections with
      | error e2 =>
          simp only [h2] at h
          injection h with h
          subst h
          exact Or.inr (Or.inl rfl)
      | ok xs =>
          simp only [h2] at h
          cases h3 : validateLimit input.limit with
          | error e3 =>
              simp only [h3] at h
              injection h with h
              subst h
              exact Or.inr (Or.inr (Or.inl rfl))
          | ok u3 =>
              cases u3
              simp only [h3] at h
              cases h4 : validateOffset input.offset with
              | error e4 =>
                  simp only [h4] at h
                  injection h with h
                  subst h
                  exact Or.inr (Or.inr (Or.inr (Or.inl rfl)))
              | ok u4 =>
                  cases u4
                  simp only [h4] at h
                  cases h5 : validateExclusive input.filters input.autoFilters with
                  | error e5 =>
                      simp only [h5] at h
                      injection h with h
                      subst h
                      exact Or.inr (Or.inr (Or.inr (Or.inr (Or.inl rfl))))
                  | ok u5 =>
                      cases u5
                      simp only [h5] at h
                      cases h6 : validateFilters input.filters with
                      | error e6 =>
                          simp only [h6] at h
                          injection h with h
                          subst h
                          exact Or.inr (Or.inr (Or.inr (Or.inr (Or.inr rfl))))
                      | ok u6 =>
                          cases u6
                          simp [h6] at h

theorem search_ok_inv {input : SearchInput} {r : Request}
    (h : Etoile.search input = .ok r) :
    ∃ xs, assertNonEmptyString input.query "query" = .ok () ∧
      validateCollections input.collections = .ok xs ∧
      validateLimit input.limit = .ok () ∧
      validateOffset input.offset = .ok () ∧
      validateExclusive input.filters input.autoFilters = .ok () ∧
      validateFilters input.filters = .ok () ∧
      r = ⟨"POST", "/search",
        .obj ([("query", input.query), ("collections", .arr xs),
               ("limit", jsNullish input.limit (.num (.fin 10))),
               ("offset", jsNullish input.offset (.num (.fin 0)))]
          ++ (if isUndefined input.filters then [] else [("filters", input.filters)])
          ++ (if isUndefined input.autoFilters then []
              else [("autoFilters", input.autoFilters)]))⟩ := by
  unfold Etoile.search at h
  cases h1 : assertNonEmptyString input.query "query" with
  | error e1 => simp [h1] at h
  | ok u =>
      cases u
      simp only [h1] at h
      cases h2 : validateCollections input.collections with
      | error e2 => simp [h2] at h
      | ok xs =>
          simp only [h2] at h
          cases h3 : validateLimit input.limit with
          | error e3 => simp [h3] at h
          | ok u3 =>
              cases u3
              simp only [h3] at h
              cases h4 : validateOffset input.offset with
              | error e4 => simp [h4] at h
              | ok u4 =>
                  cases u4
                  simp only [h4] at h
                  cases h5 : validateExclusive input.filters input.autoFilters with
                  | error e5 => simp [h5] at h
                  | ok u5 =>
                      cases u5
                      simp only [h5] at h
                      cases h6 : validateFilters input.filters with
                      | error e6 => simp [h6] at h
                      | ok u6 =>
                          cases u6
                          simp only [h6] at h
                          injection h with h
                          exact ⟨xs, rfl, rfl, rfl, rfl, rfl, rfl, h.symm⟩

theorem index_error_source {input : IndexInput} {e : EtoileError}
    (h : Etoile.index input = .error e) :
    assertNonEmptyString input.id "id" = .error e ∨
    assertNonEmptyString input.collection "collection" = .error e ∨
    assertNonEmptyString input.title "title" = .error e ∨
    assertContent input.content = .error e := by
  unfold Etoile.index at h
  cases h1 : assertNonEmptyString input.id "id" with
  | error e1 =>
      simp only [h1] at h
      injection h with h
      subst h
      exact Or.inl rfl
  | ok u =>
      cases u
      simp only [h1] at h
      cases h2 : assertNonEmptyString input.collection "collection" with
      | error e2 =>
          simp only [h2] at h
          injection h with h
          subst h
          exact Or.inr (Or.inl rfl)
      | ok u2 =>
          cases u2
          simp only [h2] at h
          cases h3 : assertNonEmptyString input.title "title" with
          | error e3 =>
              simp only [h3] at h
              injection h with h
              subst h
              exact Or.inr (Or.inr (Or.inl rfl))
          | ok u3 =>
              cases u3
              simp only [h3] at h
              cases h4 : assertContent input.content with
              | error e4 =>
                  simp only [h4] at h
                  injection h with h
                  subst h
                  exact Or.inr (Or.inr (Or.inr rfl))
              | ok u4 =>
                  cases u4
                  simp [h4] at h

theorem index_ok_inv {input : IndexInput} {r : Request}
    (h : Etoile.index input = .ok r) :
    assertNonEmptyString input.id "id" = .ok () ∧
    assertNonEmptyString input.collection "collection" = .ok () ∧
    assertNonEmptyString input.title "title" = .ok () ∧
    assertContent input.content = .ok () ∧
    r = ⟨"POST", "/index",
      .obj [("id", input.id), ("collection", input.collection),
            ("title", input.title), ("content", input.content),
            ("metadata", input.metadata)]⟩ := by
  unfold Etoile.index at h
  cases h1 : assertNonEmptyString input.id "id" with
  | error e1 => simp [h1] at h
  | ok u =>
      cases u
      simp only [h1] at h
      cases h2 : assertNonEmptyString input.collection "collection" with
      | error e2 => simp [h2] at h
      | ok u2 =>
          cases u2
          simp only [h2] at h
          cases h3 : assertNonEmptyString input.title "title" with
          | error e3 => simp [h3] at h
          | ok u3 =>
              cases u3
              simp only [h3] at h
              cases h4 : assertContent input.content with
              | error e4 => simp [h4] at h
              | ok u4 =>
                  cases u4
                  simp only [h4] at h
                  injection h with h
                  exact ⟨rfl, rfl, rfl, rfl, h.symm⟩

theorem delete_error_source {id : JSValue} {e : EtoileError}
    (h : Etoile.delete id = .error e) :
    assertNonEmptyString id "id" = .error e := by
  unfold Etoile.delete at h
  cases h1 : assertNonEmptyString id "id" with
  | error e1 =>
      simp only [h1] at h
      injection h with h
      subst h
      rfl
  | ok u =>
      cases u
      simp [h1] at h

theorem delete_ok_inv {id : JSValue} {r : Request}
    (h : Etoile.delete id = .ok r) :
    assertNonEmptyString id "id" = .ok () ∧
    r = ⟨"DELETE", "/documents", .obj [("id", id)]⟩ := by
  unfold Etoile.delete at h
  cases h1 : assertNonEmptyString id "id" with
  | error e1 => simp [h1] at h
  | ok u =>
      cases u
      simp only [h1] at h
      injection h with h
      exact ⟨rfl, h.symm⟩

theorem patch_error_source {input : PatchInput} {e : EtoileError}
    (h : Etoile.patch input = .error e) :
    assertNonEmptyString input.id "id" = .error e ∨
    e = createEtoileError "INVALID_INPUT" "metadata is required." := by
  unfold Etoile.patch at h
  cases h1 : assertNonEmptyString input.id "id" with
  | error e1 =>
      simp only [h1] at h
      injection h with h
      subst h
      exact Or.inl rfl
  | ok u =>
      cases u
      simp only [h1] at h
      split at h
      · injection h with h
        subst h
        exact Or.inr rfl
      · simp at h

theorem patch_ok_inv {input : PatchInput} {r : Request}
    (h : Etoile.patch input = .ok r) :
    assertNonEmptyString input.id "id" = .ok () ∧
    r = ⟨"PATCH", "/documents", .obj [("id", input.id), ("metadata", input.metadata)]⟩ := by
  unfold Etoile.patch at h
  cases h1 : assertNonEmptyString input.id "id" with
  | error e1 => simp [h1] at h
  | ok u =>
      cases u
      simp only [h1] at h
      split at h
      · simp at h
      · injection h with h
        exact ⟨rfl, h.symm⟩

theorem mkEtoile_error_source {config : JSValue} {e : EtoileError}
    (h : mkEtoile config = .error e) :
    e = createEtoileError "INVALID_INPUT" "Config is required." ∨
    assertNonEmptyString (jsGet config "apiKey") "apiKey" = .error e := by
  unfold mkEtoile at h
  split at h
  · injection h with h
    subst h
    exact Or.inl rfl
  · cases h1 : assertNonEmptyString (jsGet config "apiKey") "apiKey" with
    | error e1 =>
        simp only [h1] at h
        injection h with h
        subst h
        exact Or.inr rfl
    | ok u =>
        cases u
        simp [h1] at h

/-! ### Error-code corollaries: every validation failure carries
the code INVALID_INPUT -/

theorem search_error_code {input : SearchInput} {e : EtoileError}
    (h : Etoile.search input = .error e) : e.code = "INVALID_INPUT" := by
  rcases search_error_source h with h1 | h1 | h1 | h1 | h1 | h1
  · rw [assertNonEmptyString_error_eq h1]; rfl
  · rw [validateCollections_error_eq h1]; rfl
  · rw [validateLimit_error_eq h1]; rfl
  · rw [validateOffset_error_eq h1]; rfl
  · rw [validateExclusive_error_eq h1]; rfl
  · exact (validateFilters_error_props h1).1

theorem index_error_code {input : IndexInput} {e : EtoileError}
    (h : Etoile.index input = .error e) : e.code = "INVALID_INPUT" := by
  rcases index_error_source h with h1 | h1 | h1 | h1
  · rw [assertNonEmptyString_error_eq h1]; rfl
  · rw [assertNonEmptyString_error_eq h1]; rfl
  · rw [assertNonEmptyString_error_eq h1]; rfl
  · rw [assertContent_error_eq h1]; rfl

theorem delete_error_code {id : JSValue} {e : EtoileError}
    (h : Etoile.delete id = .error e) : e.code = "INVALID_INPUT" := by
  rw [assertNonEmptyString_error_eq (delete_error_source h)]; rfl

theorem patch_error_code {input : PatchInput} {e : EtoileError}
    (h : Etoile.patch input = .error e) : e.code = "INVALID_INPUT" := by
  rcases patch_error_source h with h1 | h1
  · rw [assertNonEmptyString_error_eq h1]; rfl
  · rw [h1]; rfl

theorem mkEtoile_error_code {config : JSValue} {e : EtoileError}
    (h : mkEtoile config = .error e) : e.code = "INVALID_INPUT" := by
  rcases mkEtoile_error_source h with h1 | h1
  · rw [h1]; rfl
  · rw [assertNonEmptyString_error_eq h1]; rfl

theorem mkEtoile_ok_inv {config : JSValue} {cfg : ClientConfig}
    (h : mkEtoile config = .ok cfg) :
    assertNonEmptyString (jsGet config "apiKey") "apiKey" = .ok () ∧
    cfg = ⟨jsGet config "apiKey", jsNullish (jsGet config "baseUrl") (.str API_URL)⟩ := by
  unfold mkEtoile at h
  split at h
  · simp at h
  · cases h1 : assertNonEmptyString (jsGet config "apiKey") "apiKey" with
    | error e1 => simp [h1] at h
    | ok u =>
        cases u
        simp only [h1] at h
        injection h with h
        exact ⟨rfl, h.symm⟩

/-! ### Claim theorems -/

/-- C1: for every search input in which both `filters` and `autoFilters`
are supplied (both not `undefined`), `search` rejects with an `EtoileError`
of code INVALID_INPUT, regardless of the filters' contents and of the
value of `autoFilters` (including `false`).  A `.error` result means the
rejection happens before any request is built, so no network call occurs. -/
theorem search_rejects_filters_with_autoFilters (input : SearchInput)
    (hf : input.filters ≠ JSValue.undef) (ha : input.autoFilters ≠ JSValue.undef) :
    ∃ e, Etoile.search input = .error e ∧ e.code = "INVALID_INPUT" := by
  cases hres : Etoile.search input with
  | ok r =>
      rcases search_ok_inv hres with ⟨xs, _, _, _, _, hexcl, _, _⟩
      rcases (validateExclusive_ok_iff _ _).1 hexcl with h | h
      · exact absurd h hf
      · exact absurd h ha
  | error e => exact ⟨e, rfl, search_error_code hres⟩

/-- Witness for C1: a concrete input with a well-formed filter and
`autoFilters: false` still rejects with INVALID_INPUT. -/
theorem search_rejects_filters_with_autoFilters_witness :
    ∃ e, Etoile.search ⟨.str "q", .arr [.str "c"], .undef, .undef,
        .arr [.obj [("key", .str "category"), ("operator", .str "eq"),
          ("value", .str "kitchen")]], .bool false⟩ = .error e ∧
      e.code = "INVALID_INPUT" :=
  search_rejects_filters_with_autoFilters _ (by simp) (by simp)

/-- C2: for every operation (constructor, index, search, delete, patch),
an input whose required string field is missing or blank (not a string, or
trimmed-empty) makes the call fail with an `EtoileError` of code
INVALID_INPUT; the `.error` result is produced before a `Request` is ever
built, so the transport wrapper `fetchJson` is never invoked. -/
theorem invalid_required_string_rejects_without_network :
    (∀ config : JSValue, isNonBlankString (jsGet config "apiKey") = false →
      ∃ e, mkEtoile config = .error e ∧ e.code = "INVALID_INPUT") ∧
    (∀ input : IndexInput,
      (isNonBlankString input.id = false ∨ isNonBlankString input.collection = false ∨
       isNonBlankString input.title = false ∨ isNonBlankString input.content = false) →
      ∃ e, Etoile.index input = .error e ∧ e.code = "INVALID_INPUT") ∧
    (∀ input : SearchInput, isNonBlankString input.query = false →
      ∃ e, Etoile.search input = .error e ∧ e.code = "INVALID_INPUT") ∧
    (∀ id : JSValue, isNonBlankString id = false →
      ∃ e, Etoile.delete id = .error e ∧ e.code = "INVALID_INPUT") ∧
    (∀ input : PatchInput, isNonBlankString input.id = false →
      ∃ e, Etoile.patch input = .error e ∧ e.code = "INVALID_INPUT") := by
  refine ⟨?_, ?_, ?_, ?_, ?_⟩
  · intro config hblank
    cases hres : mkEtoile config with
    | ok cfg =>
        have hok := (assertNonEmptyString_ok_iff _ _).1 (mkEtoile_ok_inv hres).1
        simp [hok] at hblank
    | error e => exact ⟨e, rfl, mkEtoile_error_code hres⟩
  · intro input hblank
    cases hres : Etoile.index input with
    | ok r =>
        rcases index_ok_inv hres with ⟨h1, h2, h3, h4, _⟩
        rw [assertNonEmptyString_ok_iff] at h1 h2 h3
        rw [assertContent_ok_iff] at h4
        rcases hblank with hb | hb | hb | hb <;> simp_all
    | error e => exact ⟨e, rfl, index_error_code hres⟩
  · intro input hblank
    cases hres : Etoile.search input with
    | ok r =>
        rcases search_ok_inv hres with ⟨xs, h1, _⟩
        rw [assertNonEmptyString_ok_iff] at h1
        simp [h1] at hblank
    | error e => exact ⟨e, rfl, search_error_code hres⟩
  · intro id hblank
    cases hres : Etoile.delete id with
    | ok r =>
        have h1 := (assertNonEmptyString_ok_iff _ _).1 (delete_ok_inv hres).1
        simp [h1] at hblank
    | error e => exact ⟨e, rfl, delete_error_code hres⟩
  · intro input hblank
    cases hres : Etoile.patch input with
    | ok r =>
        have h1 := (assertNonEmptyString_ok_iff _ _).1 (patch_ok_inv hres).1
        simp [h1] at hblank
    | error e => exact ⟨e, rfl, patch_error_code hres⟩

/-- Witness for C2: each operation applied to a concrete input with a
blank required string field. -/
theorem invalid_required_string_rejects_without_network_witness :
    (∃ e, mkEtoile (.obj [("apiKey", .str "")]) = .error e ∧ e.code = "INVALID_INPUT") ∧
    (∃ e, Etoile.index ⟨.str "", .str "c", .str "t", .str "x", .undef⟩ = .error e ∧
      e.code = "INVALID_INPUT") ∧
    (∃ e, Etoile.search ⟨.str "   ", .arr [.str "c"], .undef, .undef, .undef, .undef⟩
      = .error e ∧ e.code = "INVALID_INPUT") ∧
    (∃ e, Etoile.delete .undef = .error e ∧ e.code = "INVALID_INPUT") ∧
    (∃ e, Etoile.patch ⟨.str " ", .obj [("a", .null)]⟩ = .error e ∧
      e.code = "INVALID_INPUT") :=
  ⟨invalid_required_string_rejects_without_network.1 _ (by decide),
   invalid_required_string_rejects_without_network.2.1 _ (Or.inl (by decide)),
   invalid_required_string_rejects_without_network.2.2.1 _ (by decide),
   invalid_required_string_rejects_without_network.2.2.2.1 _ (by decide),
   invalid_required_string_rejects_without_network.2.2.2.2 _ (by decide)⟩

/-- C6: a valid index input with no metadata (the `metadata` field is
`undefined`) produces a POST request to `/index` whose body literal is
exactly the caller's four values plus a `metadata` key holding
`undefined`. -/
theorem index_body_exact {input : IndexInput} {r : Request}
    (hm : input.metadata = JSValue.undef) (h : Etoile.index input = .ok r) :
    r.method = "POST" ∧ r.path = "/index" ∧
    r.body = .obj [("id", input.id), ("collection", input.collection),
      ("title", input.title), ("content", input.content),
      ("metadata", JSValue.undef)] := by
  rcases index_ok_inv h with ⟨_, _, _, _, hr⟩
  subst hr
  exact ⟨rfl, rfl, by rw [hm]⟩

/-- Witness for C6 at the spec's concrete example input. -/
theorem index_body_exact_witness :
    Request.method ⟨"POST", "/index", .obj [("id", .str "a"), ("collection", .str "c"),
        ("title", .str "t"), ("content", .str "x"), ("metadata", .undef)]⟩ = "POST" ∧
    Request.path ⟨"POST", "/index", .obj [("id", .str "a"), ("collection", .str "c"),
        ("title", .str "t"), ("content", .str "x"), ("metadata", .undef)]⟩ = "/index" ∧
    Request.body ⟨"POST", "/index", .obj [("id", .str "a"), ("collection", .str "c"),
        ("title", .str "t"), ("content", .str "x"), ("metadata", .undef)]⟩
      = .obj [("id", .str "a"), ("collection", .str "c"), ("title", .str "t"),
          ("content", .str "x"), ("metadata", JSValue.undef)] :=
  @index_body_exact ⟨.str "a", .str "c", .str "t", .str "x", .undef⟩ _ rfl rfl

/-- C7: on a non-success HTTP response, a body that fails to parse as JSON
or parses to a non-object yields a rejection with the substituted object
with `error` field "Request failed.", thrown as-is (in particular it does
not have the `EtoileError` shape); a body that parses to an object is
thrown unchanged. -/
theorem fetchJson_http_error_payload :
    (∀ body : Option JSValue,
      (body = none ∨ ∃ v, body = some v ∧ isObject v = false) →
      fetchJson (.response false body)
        = .error (.obj [("error", .str "Request failed.")]) ∧
      isEtoileError (.obj [("error", .str "Request failed.")]) = false) ∧
    (∀ v : JSValue, isObject v = true →
      fetchJson (.response false (some v)) = .error v) := by
  constructor
  · intro body hb
    refine ⟨?_, by decide⟩
    rcases hb with rfl | ⟨v, rfl, hv⟩
    · rfl
    · simp [fetchJson, fetchJsonAttempt, parseErrorPayload, hv]
      rfl
  · intro v hv
    simp [fetchJson, fetchJsonAttempt, parseErrorPayload, hv]

/-- Witness for C7: an unparseable body and a concrete parsed object. -/
theorem fetchJson_http_error_payload_witness :
    (fetchJson (.response false none)
        = .error (.obj [("error", .str "Request failed.")]) ∧
      isEtoileError (.obj [("error", .str "Request failed.")]) = false) ∧
    fetchJson (.response false (some (.obj [("error", .str "Not found.")])))
      = .error (.obj [("error", .str "Not found.")]) :=
  ⟨fetchJson_http_error_payload.1 none (Or.inl rfl),
   fetchJson_http_error_payload.2 _ (by decide)⟩

/-- C8: a value thrown during the exchange that is not an object is
normalized to the object with `error` field "Network request failed.";
a thrown object value is re-thrown unchanged. -/
theorem fetchJson_thrown_normalization :
    (∀ e : JSValue, isObject e = false →
      fetchJson (.thrown e)
        = .error (.obj [("error", .str "Network request failed.")])) ∧
    (∀ e : JSValue, isObject e = true → fetchJson (.thrown e) = .error e) := by
  constructor <;> intro e he <;> simp [fetchJson, fetchJsonAttempt, he]

/-- Witness for C8: a thrown string is normalized, a thrown object is
re-thrown unchanged. -/
theorem fetchJson_thrown_normalization_witness :
    fetchJson (.thrown (.str "connection refused"))
      = .error (.obj [("error", .str "Network request failed.")]) ∧
    fetchJson (.thrown (.obj [("name", .str "TypeError")]))
      = .error (.obj [("name", .str "TypeError")]) :=
  ⟨fetchJson_thrown_normalization.1 _ (by decide),
   fetchJson_thrown_normalization.2 _ (by decide)⟩

theorem isUndefined_false_iff (v : JSValue) : isUndefined v = false ↔ v ≠ .undef := by
  cases v <;> simp [isUndefined]

theorem validateLimit_error_of {v : JSValue} (hne : v ≠ JSValue.undef)
    (hbad : isFiniteNumber v = false ∨ numLeZero v = true) :
    validateLimit v
      = .error (createEtoileError "INVALID_INPUT" "limit must be a positive number.") := by
  cases hres : validateLimit v with
  | error e => rw [validateLimit_error_eq hres]
  | ok u =>
      cases u
      rcases (validateLimit_ok_iff v).1 hres with h | ⟨h1, h2⟩
      · exact absurd h hne
      · rcases hbad with hb | hb <;> simp_all

/-- C3: with a valid query and collections, a present `limit` makes search
reject with the INVALID_INPUT limit error exactly when the limit is not a
finite number or is less than or equal to zero. -/
theorem search_limit_validation (input : SearchInput)
    (hq : isNonBlankString input.query = true)
    (hc : ∃ xs, validateCollections input.collections = .ok xs)
    (hl : input.limit ≠ JSValue.undef) :
    (isFiniteNumber input.limit = false ∨ numLeZero input.limit = true) ↔
      Etoile.search input
        = .error (createEtoileError "INVALID_INPUT" "limit must be a positive number.") := by
  rcases hc with ⟨xs, hc⟩
  constructor
  · intro hbad
    have hq' : assertNonEmptyString input.query "query" = .ok () :=
      (assertNonEmptyString_ok_iff _ _).2 hq
    have hl' : validateLimit input.limit
        = .error (createEtoileError "INVALID_INPUT" "limit must be a positive number.") :=
      validateLimit_error_of hl hbad
    unfold Etoile.search
    simp only [hq', hc, hl']
  · intro herr
    rcases search_error_source herr with h1 | h1 | h1 | h1 | h1 | h1
    · rw [(assertNonEmptyString_ok_iff _ _).2 hq] at h1
      exact absurd h1 (by simp)
    · rw [hc] at h1
      exact absurd h1 (by simp)
    · by_contra hcon
      push_neg at hcon
      obtain ⟨hfin, hle⟩ := hcon
      have hok : validateLimit input.limit = .ok () :=
        (validateLimit_ok_iff _).2 (Or.inr ⟨by simpa using hfin, by simpa using hle⟩)
      rw [hok] at h1
      exact absurd h1 (by simp)
    · exact absurd (validateOffset_error_eq h1) (by decide)
    · exact absurd (validateExclusive_error_eq h1) (by decide)
    · exact absurd rfl (validateFilters_error_props h1).2

/-- Witness for C3 at limit -1 with valid query and collections: the limit
is rejected with the limit-specific INVALID_INPUT error. -/
theorem search_limit_validation_witness :
    (isFiniteNumber (JSValue.num (.fin (-1))) = false ∨
     numLeZero (JSValue.num (.fin (-1))) = true) ↔
      Etoile.search ⟨.str "q", .arr [.str "c"], .num (.fin (-1)), .undef, .undef, .undef⟩
        = .error (createEtoileError "INVALID_INPUT" "limit must be a positive number.") :=
  search_limit_validation
    ⟨.str "q", .arr [.str "c"], .num (.fin (-1)), .undef, .undef, .undef⟩
    (by decide) ⟨[.str "c"], rfl⟩ (by simp)

/-- C4: search rejects with INVALID_INPUT whenever `collections` is not an
array, is empty, or contains a non-string or blank-string element;
otherwise the collections value passes `validateCollections` unchanged. -/
theorem search_collections_validation (input : SearchInput) :
    (collectionsRejectSpec input.collections = true →
      ∃ e, Etoile.search input = .error e ∧ e.code = "INVALID_INPUT") ∧
    (collectionsRejectSpec input.collections = false →
      ∃ xs, input.collections = .arr xs ∧
        validateCollections input.collections = .ok xs) := by
  constructor
  · intro hbad
    cases hres : Etoile.search input with
    | ok r =>
        rcases search_ok_inv hres with ⟨xs, _, hcoll, _⟩
        rcases (validateCollections_ok_iff _ _).1 hcoll with ⟨heq, hlen, hall⟩
        rw [heq] at hbad
        simp only [collectionsRejectSpec, Bool.or_eq_true, List.isEmpty_iff,
          List.any_eq_true, Bool.not_eq_true', List.all_eq_true] at hbad hall
        rcases hbad with hb | ⟨x, hx, hxb⟩
        · exact ((hlen (by simp [hb])).elim)
        · exact (False.elim (absurd (hall x hx) (by simp [hxb])))
    | error e => exact ⟨e, rfl, search_error_code hres⟩
  · intro hgood
    cases hcv : input.collections
    case arr xs =>
        rw [hcv] at hgood
        refine ⟨xs, rfl, ?_⟩
        rw [validateCollections_ok_iff]
        simp only [collectionsRejectSpec, Bool.or_eq_false_iff, List.isEmpty_eq_false,
          List.any_eq_false, Bool.not_eq_false] at hgood
        refine ⟨rfl, by simp [hgood.1], ?_⟩
        simp only [List.all_eq_true]
        intro x hx
        simpa using hgood.2 x hx
    all_goals (rw [hcv] at hgood; simp [collectionsRejectSpec] at hgood)

/-- Witness for C4: blank collection names reject; a good collections
array passes validation unchanged. -/
theorem search_collections_validation_witness :
    (∃ e, Etoile.search ⟨.str "q", .arr [.str "", .str "  "], .undef, .undef, .undef, .undef⟩
        = .error e ∧ e.code = "INVALID_INPUT") ∧
    (∃ xs, (JSValue.arr [JSValue.str "c"]) = JSValue.arr xs ∧
      validateCollections (.arr [.str "c"]) = .ok xs) :=
  ⟨(search_collections_validation
      ⟨.str "q", .arr [.str "", .str "  "], .undef, .undef, .undef, .undef⟩).1 (by decide),
   (search_collections_validation
      ⟨.str "q", .arr [.str "c"], .undef, .undef, .undef, .undef⟩).2 (by decide)⟩

/-- C5: for every valid search input the outbound body contains `query`,
`collections`, `limit` (defaulting to 10 when absent) and `offset`
(defaulting to 0), contains `filters` / `autoFilters` exactly when the
caller supplied them, and a supplied filters value appears verbatim. -/
theorem search_body_shape {input : SearchInput} {r : Request}
    (h : Etoile.search input = .ok r) :
    r.method = "POST" ∧ r.path = "/search" ∧
    bodyGet r.body "query" = some input.query ∧
    bodyGet r.body "collections" = some input.collections ∧
    (input.limit = JSValue.undef → bodyGet r.body "limit" = some (.num (.fin 10))) ∧
    (input.limit ≠ JSValue.undef → bodyGet r.body "limit" = some input.limit) ∧
    (input.offset = JSValue.undef → bodyGet r.body "offset" = some (.num (.fin 0))) ∧
    (input.offset ≠ JSValue.undef → bodyGet r.body "offset" = some input.offset) ∧
    ((bodyGet r.body "filters").isSome = true ↔ input.filters ≠ JSValue.undef) ∧
    (input.filters ≠ JSValue.undef → bodyGet r.body "filters" = some input.filters) ∧
    ((bodyGet r.body "autoFilters").isSome = true ↔ input.autoFilters ≠ JSValue.undef) ∧
    (input.autoFilters ≠ JSValue.undef →
      bodyGet r.body "autoFilters" = some input.autoFilters) := by
  rcases search_ok_inv h with ⟨xs, hq, hc, hl, ho, hex, hfil, hr⟩
  have hceq : input.collections = .arr xs := ((validateCollections_ok_iff _ _).1 hc).1
  have hlim : input.limit ≠ JSValue.undef →
      jsNullish input.limit (.num (.fin 10)) = input.limit := by
    intro hne
    rcases (validateLimit_ok_iff _).1 hl with hu | ⟨hfin, _⟩
    · exact absurd hu hne
    · cases hv : input.limit <;> simp_all [jsNullish, isFiniteNumber]
  have hoff : input.offset ≠ JSValue.undef →
      jsNullish input.offset (.num (.fin 0)) = input.offset := by
    intro hne
    rcases (validateOffset_ok_iff _).1 ho with hu | ⟨hfin, _⟩
    · exact absurd hu hne
    · cases hv : input.offset <;> simp_all [jsNullish, isFiniteNumber]
  subst hr
  rcases Bool.eq_false_or_eq_true (isUndefined input.filters) with hfu | hfu <;>
    rcases Bool.eq_false_or_eq_true (isUndefined input.autoFilters) with hau | hau
  · have hf' : input.filters = JSValue.undef := (isUndefined_iff _).1 hfu
    have ha' : input.autoFilters = JSValue.undef := (isUndefined_iff _).1 hau
    refine ⟨rfl, rfl, ?_, ?_, ?_, ?_, ?_, ?_, ?_, ?_, ?_, ?_⟩ <;>
      simp [hfu, hau, bodyGet, objLookup, hceq, hf', ha'] <;>
      first
        | (intro hne; rw [hlim hne])
        | (intro hne; rw [hoff hne])
        | (intro heq; simp [heq, jsNullish])
  · have hf' : input.filters = JSValue.undef := (isUndefined_iff _).1 hfu
    have ha' : input.autoFilters ≠ JSValue.undef := (isUndefined_false_iff _).1 hau
    refine ⟨rfl, rfl, ?_, ?_, ?_, ?_, ?_, ?_, ?_, ?_, ?_, ?_⟩ <;>
      simp [hfu, hau, bodyGet, objLookup, hceq, hf', ha'] <;>
      first
        | (intro hne; rw [hlim hne])
        | (intro hne; rw [hoff hne])
        | (intro heq; simp [heq, jsNullish])
  · have hf' : input.filters ≠ JSValue.undef := (isUndefined_false_iff _).1 hfu
    have ha' : input.autoFilters = JSValue.undef := (isUndefined_iff _).1 hau
    refine ⟨rfl, rfl, ?_, ?_, ?_, ?_, ?_, ?_, ?_, ?_, ?_, ?_⟩ <;>
      simp [hfu, hau, bodyGet, objLookup, hceq, hf', ha'] <;>
      first
        | (intro hne; rw [hlim hne])
        | (intro hne; rw [hoff hne])
        | (intro heq; simp [heq, jsNullish])
  · have hf' : input.filters ≠ JSValue.undef := (isUndefined_false_iff _).1 hfu
    have ha' : input.autoFilters ≠ JSValue.undef := (isUndefined_false_iff _).1 hau
    refine ⟨rfl, rfl, ?_, ?_, ?_, ?_, ?_, ?_, ?_, ?_, ?_, ?_⟩ <;>
      simp [hfu, hau, bodyGet, objLookup, hceq, hf', ha'] <;>
      first
        | (intro hne; rw [hlim hne])
        | (intro hne; rw [hoff hne])
        | (intro heq; simp [heq, jsNullish])

/-- Witness for C5 at a concrete valid input carrying one filter: the body
holds the four always-present fields with defaults applied, includes the
filters array verbatim, and omits autoFilters. -/
theorem search_body_shape_witness :
    sampleFilteredSearchRequest.method = "POST" ∧
    sampleFilteredSearchRequest.path = "/search" ∧
    bodyGet sampleFilteredSearchRequest.body "query"
      = some sampleFilteredSearchInput.query ∧
    bodyGet sampleFilteredSearchRequest.body "collections"
      = some sampleFilteredSearchInput.collections ∧
    (sampleFilteredSearchInput.limit = JSValue.undef →
      bodyGet sampleFilteredSearchRequest.body "limit" = some (.num (.fin 10))) ∧
    (sampleFilteredSearchInput.limit ≠ JSValue.undef →
      bodyGet sampleFilteredSearchRequest.body "limit"
        = some sampleFilteredSearchInput.limit) ∧
    (sampleFilteredSearchInput.offset = JSValue.undef →
      bodyGet sampleFilteredSearchRequest.body "offset" = some (.num (.fin 0))) ∧
    (sampleFilteredSearchInput.offset ≠ JSValue.undef →
      bodyGet sampleFilteredSearchRequest.body "offset"
        = some sampleFilteredSearchInput.offset) ∧
    ((bodyGet sampleFilteredSearchRequest.body "filters").isSome = true ↔
      sampleFilteredSearchInput.filters ≠ JSValue.undef) ∧
    (sampleFilteredSearchInput.filters ≠ JSValue.undef →
      bodyGet sampleFilteredSearchRequest.body "filters"
        = some sampleFilteredSearchInput.filters) ∧
    ((bodyGet sampleFilteredSearchRequest.body "autoFilters").isSome = true ↔
      sampleFilteredSearchInput.autoFilters ≠ JSValue.undef) ∧
    (sampleFilteredSearchInput.autoFilters ≠ JSValue.undef →
      bodyGet sampleFilteredSearchRequest.body "autoFilters"
        = some sampleFilteredSearchInput.autoFilters) :=
  @search_body_shape sampleFilteredSearchInput sampleFilteredSearchRequest rfl

/-- C9 counterexample: a filter whose operator is the non-empty string
"bogus", which is outside the enumerated `FilterOperator` set, is NOT
rejected — `search` succeeds and builds the outbound request. -/
theorem search_operator_outside_enum_not_rejected :
    FilterOperator.values.contains "bogus" = false ∧
    Etoile.search ⟨.str "q", .arr [.str "c"], .undef, .undef,
        .arr [.obj [("key", .str "k"), ("operator", .str "bogus"),
          ("value", .str "v")]],
        .undef⟩
      = .ok ⟨"POST", "/search",
          .obj [("query", .str "q"), ("collections", .arr [.str "c"]),
                ("limit", .num (.fin 10)), ("offset", .num (.fin 0)),
                ("filters", .arr [.obj [("key", .str "k"),
                  ("operator", .str "bogus"), ("value", .str "v")]])]⟩ :=
  ⟨by decide, rfl⟩

/-- C9 (amended): runtime validation checks each filter's `operator` only
for being a non-blank string.  A filters array containing an element whose
operator is missing, not a string, or blank makes search reject with
INVALID_INPUT before any network call; membership in the enumerated
operator set is not checked at runtime. -/
theorem search_rejects_blank_filter_operator (input : SearchInput)
    (xs : List JSValue) (hfa : input.filters = .arr xs) (f : JSValue)
    (hmem : f ∈ xs) (hop : isNonBlankString (jsGet f "operator") = false) :
    ∃ e, Etoile.search input = .error e ∧ e.code = "INVALID_INPUT" := by
  cases hres : Etoile.search input with
  | ok r =>
      rcases search_ok_inv hres with ⟨ys, _, _, _, _, _, hfil, _⟩
      rw [hfa] at hfil
      have hok := validateFilter_ok_operator (validateFilters_arr_ok hfil f hmem)
      simp [hok] at hop
  | error e => exact ⟨e, rfl, search_error_code hres⟩

/-- Witness for the amended C9: a filter with a blank operator rejects. -/
theorem search_rejects_blank_filter_operator_witness :
    ∃ e, Etoile.search ⟨.str "q", .arr [.str "c"], .undef, .undef,
        .arr [.obj [("key", .str "k"), ("operator", .str ""), ("value", .str "v")]],
        .undef⟩ = .error e ∧ e.code = "INVALID_INPUT" :=
  search_rejects_blank_filter_operator _
    [.obj [("key", .str "k"), ("operator", .str ""), ("value", .str "v")]] rfl
    (.obj [("key", .str "k"), ("operator", .str ""), ("value", .str "v")])
    (by simp) (by decide)

/-- C10: required string fields are trimmed only for the emptiness check:
a whitespace-only string is rejected with INVALID_INPUT, while a string
that merely has surrounding whitespace passes, and every operation's
outbound body carries the caller's original untrimmed value verbatim. -/
theorem trim_only_for_validation :
    (∀ (s field : String),
      ((jsTrim s).length = 0 →
        ∃ e, assertNonEmptyString (.str s) field = .error e ∧
          e.code = "INVALID_INPUT") ∧
      ((jsTrim s).length ≠ 0 → assertNonEmptyString (.str s) field = .ok ())) ∧
    (∀ (input : IndexInput) (r : Request), Etoile.index input = .ok r →
      bodyGet r.body "id" = some input.id ∧
      bodyGet r.body "collection" = some input.collection ∧
      bodyGet r.body "title" = some input.title ∧
      bodyGet r.body "content" = some input.content) ∧
    (∀ (input : SearchInput) (r : Request), Etoile.search input = .ok r →
      bodyGet r.body "query" = some input.query) ∧
    (∀ (id : JSValue) (r : Request), Etoile.delete id = .ok r →
      r.body = .obj [("id", id)]) ∧
    (∀ (input : PatchInput) (r : Request), Etoile.patch input = .ok r →
      bodyGet r.body "id" = some input.id) := by
  refine ⟨?_, ?_, ?_, ?_, ?_⟩
  · intro s field
    constructor
    · intro h0
      exact ⟨createEtoileError "INVALID_INPUT" (field ++ " is required."),
        by simp [assertNonEmptyString, h0], rfl⟩
    · intro hne
      simp [assertNonEmptyString, hne]
  · intro input r h
    rcases index_ok_inv h with ⟨_, _, _, _, hr⟩
    subst hr
    refine ⟨?_, ?_, ?_, ?_⟩ <;> simp [bodyGet, objLookup]
  · intro input r h
    rcases search_ok_inv h with ⟨xs, _, _, _, _, _, _, hr⟩
    subst hr
    simp [bodyGet, objLookup]
  · intro id r h
    rw [(delete_ok_inv h).2]
  · intro input r h
    rcases patch_ok_inv h with ⟨_, hr⟩
    subst hr
    simp [bodyGet, objLookup]

/-- Witness for C10: a whitespace-only id is rejected, an id with
surrounding whitespace passes, and the index body carries the untrimmed
value verbatim. -/
theorem trim_only_for_validation_witness :
    (∃ e, assertNonEmptyString (.str "   ") "id" = .error e ∧
      e.code = "INVALID_INPUT") ∧
    assertNonEmptyString (.str " a ") "id" = .ok () ∧
    bodyGet (Request.body ⟨"POST", "/index",
        .obj [("id", .str " a "), ("collection", .str "c"), ("title", .str "t"),
          ("content", .str "x"), ("metadata", .undef)]⟩) "id"
      = some (JSValue.str " a ") :=
  ⟨(trim_only_for_validation.1 "   " "id").1 (by decide),
   (trim_only_for_validation.1 " a " "id").2 (by decide),
   (trim_only_for_validation.2.1 ⟨.str " a ", .str "c", .str "t", .str "x", .undef⟩
     ⟨"POST", "/index", .obj [("id", .str " a "), ("collection", .str "c"),
       ("title", .str "t"), ("content", .str "x"), ("metadata", .undef)]⟩ rfl).1⟩
